import Mathlib

/-!
Verification of the placement-pipeline backend.

This file gives a shallow embedding of the placement router
(`backend/app/routers/placement.py`), the pydantic data model
(`backend/app/models/placement.py`) and the generation store
(`backend/app/services/generation_store.py`), and proves the behavioural
claims about them.

External I/O (the Gemini generative service, HTTP fetches, the filesystem)
is modelled by oracle functions supplied as parameters: `none` stands for a
raised exception, `some` for a successful call result.  Everything that the
Python code computes itself (parsing, joining, validation, arithmetic) is
translated directly.
-/

/-! ## Python string helpers -/

/-- Whitespace characters recognised by Python's `str.strip` and the regex
class `\s` (ASCII range, which is all the source ever feeds them). -/
def isPySpace (c : Char) : Bool :=
  c = ' ' || c = '\t' || c = '\n' || c = '\r' || c = '\x0b' || c = '\x0c'

/-- Python `str.strip` on a character list. -/
def pyStripL (l : List Char) : List Char :=
  ((l.dropWhile isPySpace).reverse.dropWhile isPySpace).reverse

/-- Python `str.strip`. -/
def pyStrip (s : String) : String :=
  String.mk (pyStripL s.toList)

/-- Consume a literal pattern from the front of the input, returning the
rest; `none` when the input does not start with the pattern. -/
def consumeLit (pat cs : List Char) : Option (List Char) :=
  if pat.isPrefixOf cs then some (cs.drop pat.length) else none

/-- Split the input around the first (leftmost) occurrence of `pat`,
returning the part before it and the part after it.  This is the semantics
of a committed literal search, as performed by `re.search` on a literal
prefix of a pattern. -/
def splitFirst (pat : List Char) : List Char → Option (List Char × List Char)
  | [] => if pat.isPrefixOf ([] : List Char) then some ([], []) else none
  | c :: cs =>
    if pat.isPrefixOf (c :: cs) then some ([], (c :: cs).drop pat.length)
    else (splitFirst pat cs).map (fun p => (c :: p.1, p.2))

/-- Leftmost-match semantics of `re.search(r"<tag>(.*?)</tag>", text, re.DOTALL)`:
the text between the first occurrence of the opening literal and the first
occurrence of the closing literal after it. -/
def searchTag (op cl text : List Char) : Option (List Char) :=
  match splitFirst op text with
  | none => none
  | some (_, rest) =>
    match splitFirst cl rest with
    | none => none
    | some (content, _) => some content

/-- Python's `in` test on strings (substring containment). -/
def strContains (pat s : String) : Bool :=
  (splitFirst pat.toList s.toList).isSome

/-! ## Data model (`backend/app/models/placement.py`) -/

/-- `ProductInfo`: product information for selection and composition. -/
structure ProductInfo where
  id : String
  name : String
  brand : String
  description : Option String := none
  image_url : Option String := none
  target_demographics : List String := []
  target_interests : List String := []
  scene_preferences : List String := []
  semantic_filter : Option String := none
deriving DecidableEq, Repr

/-- `LikedScene`: a scene the user liked. -/
structure LikedScene where
  description : String
  mood : String
  product_name : Option String := none
deriving DecidableEq, Repr

/-- `SceneDescription`: a single scene description. -/
structure SceneDescription where
  id : String
  description : String
  mood : String
  scene_type : String := "exploration"
deriving DecidableEq, Repr

/-- `ImageGenRequest`: single scene for image generation. -/
structure ImageGenRequest where
  scene_id : String
  scene_description : String
  mood : String
deriving DecidableEq, Repr

/-- `GeneratedImage`: a single generated image (base64 data). -/
structure GeneratedImage where
  scene_id : String
  image_data : String
  mime_type : String
deriving DecidableEq, Repr

/-- `ImageForSelection`: image data for product selection. -/
structure ImageForSelection where
  scene_id : String
  image_data : String
  mime_type : String
deriving DecidableEq, Repr

/-- `ProductSelection`: product selection result for one image.
`match_score` has pydantic default `5` and is never set by the router. -/
structure ProductSelection where
  scene_id : String
  selected_product_id : String
  placement_hint : String
  rationale : String
  match_score : Int := 5
deriving DecidableEq, Repr

/-- `CompositionTask`: single composition task. -/
structure CompositionTask where
  scene_id : String
  scene_image : String
  scene_mime_type : String
  product : ProductInfo
  product_image : String
  product_mime_type : String
  placement_hint : String
deriving DecidableEq, Repr

/-- `ComposedImage`: a single composed image. -/
structure ComposedImage where
  scene_id : String
  image_data : String
  mime_type : String
deriving DecidableEq, Repr

/-- `MaskTask`: single mask generation task. -/
structure MaskTask where
  scene_id : String
  composed_image : String
  mime_type : String
  product_name : String
deriving DecidableEq, Repr

/-- `GeneratedMask`: a single generated mask. -/
structure GeneratedMask where
  scene_id : String
  mask_data : String
  mime_type : String
deriving DecidableEq, Repr

/-- `PlacementResult`: complete placement result combining all pipeline
outputs. -/
structure PlacementResult where
  scene_id : String
  scene_description : String
  mood : String
  scene_type : String := "exploration"
  scene_image : String
  composed_image : String
  mask : String
  mime_type : String
  product : ProductInfo
  placement_hint : String
  rationale : String := ""
deriving DecidableEq, Repr

/-- `PipelineRequest`: unified request for the full 5-step pipeline.
`continuation_ratio` is a Python float in the source; it is modelled as a
rational number. -/
structure PipelineRequest where
  writing_context : String
  products : List ProductInfo
  liked_scenes : List LikedScene := []
  scene_count : Int := 3
  continuation_ratio : Rat := 6/10
deriving DecidableEq, Repr

/-- An `HTTPException` raised by the router: status code plus detail. -/
structure HTTPError where
  status : Nat
  detail : String
deriving DecidableEq, Repr

/-! ## Response parsing (`placement.py`, `parse_scenes_xml` / `parse_selection_xml`)

`parse_scenes_xml` runs `re.findall` with the pattern

  <scene id="(\d+)"(?: type="(continuation|exploration)")?\s*>\s*
  <description>(.*?)</description>\s*<mood>(.*?)</mood>\s*</scene>

under `re.DOTALL`.  The scanner below reproduces the engine's behaviour on
this concrete pattern: literals are committed (no alternatives survive
backtracking, since every literal is followed by a character that cannot
re-match it), `\d+` is a committed maximal digit run (it must be followed
by a quote, which is not a digit), the optional type group is committed
when its full literal is present, and the two lazy groups `(.*?)` take the
shortest extent such that the entire remainder of the pattern matches,
extending on failure — implemented by `lazyUntil`. -/

/-- Raw capture of one `<scene>` block: digits of the id attribute, the
optional type attribute, and the two lazy group captures. -/
structure RawScene where
  digits : List Char
  ty : Option String
  desc : List Char
  mood : List Char
deriving DecidableEq, Repr

/-- Lazy-dot matching: find the shortest split `input = pre ++ close ++ rest`
such that the continuation `next` succeeds on `rest`, returning the capture
`pre` and the continuation's value.  Extends the capture one character at a
time on failure, exactly like a backtracking `(.*?)` followed by a literal. -/
def lazyUntil (close : List Char) (next : List Char → Option α) :
    List Char → Option (List Char × α)
  | [] =>
    if close.isPrefixOf ([] : List Char) then
      (next (([] : List Char).drop close.length)).map (fun a => ([], a))
    else none
  | c :: cs =>
    match
      (if close.isPrefixOf (c :: cs) then
        (next ((c :: cs).drop close.length)).map (fun a => (([] : List Char), a))
      else none) with
    | some r => some r
    | none => (lazyUntil close next cs).map (fun p => (c :: p.1, p.2))

/-- Try to match one `<scene>` block of the pattern at the very start of the
input.  Returns the captures and the input remaining after the match. -/
def matchScene (cs : List Char) : Option (RawScene × List Char) :=
  match consumeLit "<scene id=\"".toList cs with
  | none => none
  | some r1 =>
    let digits := r1.takeWhile (fun c => c.isDigit)
    if digits.isEmpty then none
    else
      match consumeLit "\"".toList (r1.drop digits.length) with
      | none => none
      | some r2 =>
        let tyr : Option String × List Char :=
          match consumeLit " type=\"continuation\"".toList r2 with
          | some r => (some "continuation", r)
          | none =>
            match consumeLit " type=\"exploration\"".toList r2 with
            | some r => (some "exploration", r)
            | none => (none, r2)
        match consumeLit ">".toList (tyr.2.dropWhile isPySpace) with
        | none => none
        | some r3 =>
          match consumeLit "<description>".toList (r3.dropWhile isPySpace) with
          | none => none
          | some r4 =>
            let afterDesc := fun (rest : List Char) =>
              match consumeLit "<mood>".toList (rest.dropWhile isPySpace) with
              | none => none
              | some r5 =>
                lazyUntil "</mood>".toList
                  (fun rest2 => consumeLit "</scene>".toList (rest2.dropWhile isPySpace))
                  r5
            match lazyUntil "</description>".toList afterDesc r4 with
            | none => none
            | some (desc, (mood, rest)) =>
              some ({ digits := digits, ty := tyr.1, desc := desc, mood := mood }, rest)

/-- `re.findall` driver: scan left to right; at each position try to match
the pattern, emit the captures and continue after the match, otherwise
advance one character.  `fuel` bounds the recursion; `input.length + 1` is
always enough because every match consumes at least one character. -/
def findSceneBlocks : Nat → List Char → List RawScene
  | 0, _ => []
  | _, [] => []
  | fuel + 1, c :: cs =>
    match matchScene (c :: cs) with
    | some (raw, rest) => raw :: findSceneBlocks fuel rest
    | none => findSceneBlocks fuel cs

/-- `parse_scenes_xml`: parse XML response into `SceneDescription` objects.
An unmatched optional group comes back as the empty string in Python, which
is falsy, so the scene type defaults to `"exploration"`. -/
def parse_scenes_xml (text : String) : List SceneDescription :=
  let cs := text.toList
  (findSceneBlocks (cs.length + 1) cs).map (fun r =>
    { id := "scene-" ++ String.mk r.digits
      description := String.mk (pyStripL r.desc)
      mood := String.mk (pyStripL r.mood)
      scene_type := match r.ty with
        | some t => pyStrip t
        | none => "exploration" })

/-- `parse_selection_xml`: parse XML response into a `ProductSelection`.
Three independent `re.search` calls for `<product_id>`, `<placement>` and
`<rationale>`; if any is missing the Python code raises `ValueError`
(modelled as `none`); otherwise the first match of each tag is taken and
stripped.  `match_score` is left at its model default of 5. -/
def parse_selection_xml (text : String) (scene_id : String) : Option ProductSelection :=
  match searchTag "<product_id>".toList "</product_id>".toList text.toList,
        searchTag "<placement>".toList "</placement>".toList text.toList,
        searchTag "<rationale>".toList "</rationale>".toList text.toList with
  | some pid, some plc, some rat =>
    some { scene_id := scene_id
           selected_product_id := String.mk (pyStripL pid)
           placement_hint := String.mk (pyStripL plc)
           rationale := String.mk (pyStripL rat) }
  | _, _, _ => none

/-! ## Continuation/exploration split (`run_pipeline`, lines 703-710) -/

/-- Python's built-in `round` (banker's rounding, half to even), on the
rational model of the float computation.  Written on the numerator and
denominator directly: with `f = ⌊q⌋` the fractional part `q - f` compares
to `1/2` exactly as `2*(num - f*den)` compares to `den`. -/
def py_round (q : Rat) : Int :=
  let n := q.num
  let d := (q.den : Int)
  let f := Int.fdiv n d
  let r2 := 2 * (n - f * d)
  if r2 < d then f
  else if d < r2 then f + 1
  else if f % 2 = 0 then f else f + 1

/-- The continuation/exploration split computed at the top of
`run_pipeline`: `continuation_count = round(scene_count * continuation_ratio)`,
`exploration_count = scene_count - continuation_count`, both overridden to
`(0, scene_count)` when there are no liked scenes. -/
def continuation_split (scene_count : Int) (ratio : Rat)
    (liked_scenes : List LikedScene) : Int × Int :=
  let c := py_round ((scene_count : Rat) * ratio)
  let e := scene_count - c
  if liked_scenes = [] then (0, scene_count) else (c, e)

/-! ## Python truthiness / `or` defaults used by the router -/

/-- Python truthiness of an optional string (`None` and `""` are falsy). -/
def pyTruthyStr (o : Option String) : Bool :=
  !(o.getD "" == "")

/-- Python `x or default` for an optional string field. -/
def pyOrStr (o : Option String) (dflt : String) : String :=
  match o with
  | some s => if s = "" then dflt else s
  | none => dflt

/-! ## Capability oracles

Each oracle stands for one kind of external call made by the router.
`none` models a raised exception (or HTTP failure); `some` a normal return.
Image-producing calls return `result.images`, a list of
`(base64_data, mime_type)` pairs that may be empty (the Python code raises
`ValueError` on an empty list). -/

structure GeminiOracle where
  /-- `gemini.query` on the scene prompt; the prompt is a function of the
  continuation/exploration counts, so the oracle takes them. -/
  queryScenes : Int → Int → Option String
  /-- `gemini.generate_image` on the prompt built from a scene description
  and mood; returns `result.images`. -/
  genImage : String → String → Option (List (String × String))
  /-- `gemini.multimedia_query` with the selection prompt (a function of the
  product listing) and one input image `(data, mime)`; returns `result.text`. -/
  multimedia : String → String → String → Option String
  /-- `gemini.edit_image` for composition; all call inputs are drawn from
  the `CompositionTask`. -/
  compose : CompositionTask → Option (List (String × String))
  /-- `gemini.edit_image` for mask generation; all call inputs are drawn
  from the `MaskTask`. -/
  genMask : MaskTask → Option (List (String × String))
  /-- `fetch_image_from_url`, already base64-encoded: `url ↦ (b64, mime)`. -/
  fetch : String → Option (String × String)

/-! ## Stage item functions (`generate_single_image`, `select_product_for_image`,
`compose_single_image`, `generate_single_mask`) -/

/-- `generate_single_image`: one image-generation call; raises (`none`)
when the call fails or returns no image, otherwise a `GeneratedImage`
carrying the scene's id and the first returned image. -/
def generate_single_image (o : GeminiOracle)
    (scene_id scene_description mood : String) : Option GeneratedImage :=
  match o.genImage scene_description mood with
  | some (img :: _) => some { scene_id := scene_id, image_data := img.1, mime_type := img.2 }
  | _ => none

/-- The compact product listing sent with every selection call
(`products_xml` in the router). -/
def build_products_xml (products : List ProductInfo) : String :=
  String.intercalate "\n" (products.map (fun p =>
    "<product id=\"" ++ p.id ++ "\" brand=\"" ++ p.brand ++ "\">\n  <name>" ++
    p.name ++ "</name>\n  <description>" ++ pyOrStr p.description "Luxury product" ++
    "</description>\n</product>"))

/-- `select_product_for_image`: one multimedia call followed by
`parse_selection_xml`; failure of either is a raised exception (`none`). -/
def select_product_for_image (o : GeminiOracle)
    (scene_id image_data mime_type products_xml : String) : Option ProductSelection :=
  (o.multimedia products_xml image_data mime_type).bind
    (fun t => parse_selection_xml t scene_id)

/-- `compose_single_image`: one edit-image call on a `CompositionTask`;
raises (`none`) when the call fails or returns no image. -/
def compose_single_image (o : GeminiOracle) (task : CompositionTask) : Option ComposedImage :=
  match o.compose task with
  | some (img :: _) => some { scene_id := task.scene_id, image_data := img.1, mime_type := img.2 }
  | _ => none

/-- `generate_single_mask`: one edit-image call on a `MaskTask`; raises
(`none`) when the call fails or returns no image. -/
def generate_single_mask (o : GeminiOracle) (task : MaskTask) : Option GeneratedMask :=
  match o.genMask task with
  | some (m :: _) => some { scene_id := task.scene_id, mask_data := m.1, mime_type := m.2 }
  | _ => none

/-! ## Fan-out endpoints (`generate_images`, `select_products`)

`asyncio.gather(*tasks, return_exceptions=True)` keeps results in input
order; the collection loop appends successes to the result list and emits
one error-log entry (carrying the item's `scene_id`) per failure.  The
endpoint returns the successes plus the side-channel error log; it never
raises for an individual item. -/

/-- `generate_images` endpoint: returns (successful images, error-log scene ids). -/
def generate_images_endpoint (o : GeminiOracle) (scenes : List ImageGenRequest) :
    List GeneratedImage × List String :=
  (scenes.filterMap (fun s => generate_single_image o s.scene_id s.scene_description s.mood),
   (scenes.filter (fun s =>
      (generate_single_image o s.scene_id s.scene_description s.mood).isNone)).map
     (fun s => s.scene_id))

/-- `select_products` endpoint: returns (successful selections, error-log scene ids). -/
def select_products_endpoint (o : GeminiOracle) (products : List ProductInfo)
    (images : List ImageForSelection) : List ProductSelection × List String :=
  let pxml := build_products_xml products
  (images.filterMap (fun img =>
      select_product_for_image o img.scene_id img.image_data img.mime_type pxml),
   (images.filter (fun img =>
      (select_product_for_image o img.scene_id img.image_data img.mime_type pxml).isNone)).map
     (fun img => img.scene_id))

/-! ## Unified pipeline (`run_pipeline`) stage computations -/

/-- Step 2 of the unified pipeline: images for the parsed scenes, dropping
per-scene failures. -/
def pipeline_images (o : GeminiOracle) (scenes : List SceneDescription) : List GeneratedImage :=
  scenes.filterMap (fun s => generate_single_image o s.id s.description s.mood)

/-- Step 3 of the unified pipeline: product selections for the generated
images, dropping per-image failures. -/
def pipeline_selections (o : GeminiOracle) (products : List ProductInfo)
    (images : List GeneratedImage) : List ProductSelection :=
  images.filterMap (fun img =>
    select_product_for_image o img.scene_id img.image_data img.mime_type
      (build_products_xml products))

/-- The product-image cache built before step 4: for every product whose
`image_url` is truthy, fetch the image; failed fetches are skipped.  Stored
as an association list written in order (Python dict semantics: the last
write for an id wins). -/
def product_images_cache (o : GeminiOracle) (products : List ProductInfo) :
    List (String × String × String) :=
  (products.filter (fun p => pyTruthyStr p.image_url)).filterMap (fun p =>
    (o.fetch (p.image_url.getD "")).map (fun bm => (p.id, bm.1, bm.2)))

/-- Python dict lookup on an association list written in insertion order
(last write wins). -/
def dict_lookup (cache : List (String × String × String)) (k : String) :
    Option (String × String) :=
  (cache.reverse.find? (fun e => e.1 == k)).map (fun e => e.2)

/-- The loop body of step 4's task building: for one selection, find the
scene image and catalog product by correlation key; a selection whose
product id matches no catalog product (including `"NONE"`) yields no task. -/
def compose_task_for (products : List ProductInfo)
    (cache : List (String × String × String))
    (images : List GeneratedImage) (sel : ProductSelection) :
    Option (CompositionTask × ProductSelection) :=
  match images.find? (fun img => img.scene_id == sel.scene_id),
        products.find? (fun p => p.id == sel.selected_product_id) with
  | some simg, some p =>
    let pi := (dict_lookup cache p.id).getD ("", "image/jpeg")
    some ({ scene_id := sel.scene_id
            scene_image := simg.image_data
            scene_mime_type := simg.mime_type
            product := p
            product_image := pi.1
            product_mime_type := pi.2
            placement_hint := sel.placement_hint }, sel)
  | _, _ => none

/-- The composition task list built in step 4. -/
def compose_tasks (products : List ProductInfo)
    (cache : List (String × String × String))
    (images : List GeneratedImage) (selections : List ProductSelection) :
    List (CompositionTask × ProductSelection) :=
  selections.filterMap (compose_task_for products cache images)

/-- Step 4 results: composed images paired with their selections, dropping
per-task failures. -/
def pipeline_composed (o : GeminiOracle)
    (tasks : List (CompositionTask × ProductSelection)) :
    List (ComposedImage × ProductSelection) :=
  tasks.filterMap (fun ts => (compose_single_image o ts.1).map (fun ci => (ci, ts.2)))

/-- The mask task list built in step 5, keeping the composed image and the
selection alongside each task for the final assembly. -/
def mask_tasks (products : List ProductInfo)
    (composed : List (ComposedImage × ProductSelection)) :
    List (MaskTask × ComposedImage × ProductSelection) :=
  composed.map (fun cs =>
    ({ scene_id := cs.1.scene_id
       composed_image := cs.1.image_data
       mime_type := cs.1.mime_type
       product_name := match products.find? (fun p => p.id == cs.2.selected_product_id) with
         | some p => p.name
         | none => "product" }, cs.1, cs.2))

/-- The successful masks of step 5 (the items of `mask_results` that are
not exceptions). -/
def pipeline_masks (o : GeminiOracle)
    (mts : List (MaskTask × ComposedImage × ProductSelection)) : List GeneratedMask :=
  mts.filterMap (fun t => generate_single_mask o t.1)

/-- The loop body of the final assembly: for one mask task (with its
composed image and selection), if the mask succeeded, re-join the scene,
scene image and product by correlation key; a row with any missing link is
discarded (`none`). -/
def assemble_item (o : GeminiOracle) (products : List ProductInfo)
    (scenes : List SceneDescription) (images : List GeneratedImage)
    (t : MaskTask × ComposedImage × ProductSelection) : Option PlacementResult :=
  (generate_single_mask o t.1).bind (fun mk =>
    match scenes.find? (fun s => s.id == t.2.1.scene_id),
          images.find? (fun img => img.scene_id == t.2.1.scene_id),
          products.find? (fun p => p.id == t.2.2.selected_product_id) with
    | some s, some simg, some p =>
      some { scene_id := t.2.1.scene_id
             scene_description := s.description
             mood := s.mood
             scene_type := s.scene_type
             scene_image := simg.image_data
             composed_image := t.2.1.image_data
             mask := mk.mask_data
             mime_type := t.2.1.mime_type
             product := p
             placement_hint := t.2.2.placement_hint
             rationale := t.2.2.rationale }
    | _, _, _ => none)

/-- Final assembly: for every successful mask, re-join all upstream records. -/
def assemble_placements (o : GeminiOracle) (products : List ProductInfo)
    (scenes : List SceneDescription) (images : List GeneratedImage)
    (mts : List (MaskTask × ComposedImage × ProductSelection)) : List PlacementResult :=
  mts.filterMap (assemble_item o products scenes images)

/-- `run_pipeline`: the unified 5-step pipeline endpoint.  Validation
errors are 400s raised before any stage; a stage with zero successful items
aborts with a 500 naming the stage (steps 1-4); a failed scene query is
caught by the outer handler as a 503.  On success the placements assembled
from the successful masks are returned. -/
def run_pipeline (req : PipelineRequest) (o : GeminiOracle) :
    Except HTTPError (List PlacementResult) :=
  if pyStrip req.writing_context = "" then
    Except.error { status := 400, detail := "writing_context cannot be empty" }
  else if req.products = [] then
    Except.error { status := 400, detail := "At least one product is required" }
  else if req.scene_count < 1 ∨ req.scene_count > 10 then
    Except.error { status := 400, detail := "scene_count must be 1-10" }
  else
    let split := continuation_split req.scene_count req.continuation_ratio req.liked_scenes
    match o.queryScenes split.1 split.2 with
    | none => Except.error { status := 503, detail := "Pipeline error" }
    | some text =>
      let scenes := parse_scenes_xml text
      if scenes = [] then
        Except.error { status := 500, detail := "Failed to generate scenes" }
      else
        let images := pipeline_images o scenes
        if images = [] then
          Except.error { status := 500, detail := "Failed to generate any images" }
        else
          let selections := pipeline_selections o req.products images
          if selections = [] then
            Except.error { status := 500, detail := "Failed to select any products" }
          else
            let cache := product_images_cache o req.products
            let composed := pipeline_composed o (compose_tasks req.products cache images selections)
            if composed = [] then
              Except.error { status := 500, detail := "Failed to compose any images" }
            else
              Except.ok (assemble_placements o req.products scenes images
                (mask_tasks req.products composed))

/-! ## Generation store (`backend/app/services/generation_store.py`)

Filesystem writes are modelled by a per-item failure oracle `saveFails`
(the `try/except` around `save_image` catches any exception).  The date
directory name and the generated id are parameters (they come from the
clock and `uuid`). -/

/-- One entry of `images_base64`: a dict `{data, mime_type}`; `mime_type`
may be absent (`img.get("mime_type", "image/png")`). -/
structure MediaItem where
  data : String
  mime_type : Option String := none
deriving DecidableEq, Repr

/-- A saved media reference `{path, mime_type}` as stored in the log entry. -/
structure MediaPath where
  path : String
  mime_type : String
deriving DecidableEq, Repr

/-- The JSON log entry written by `save_generation_log` (timestamp elided:
pure wall-clock).  `metadata` is carried opaquely. -/
structure GenLogEntry where
  id : String
  endpoint : String
  prompt : String
  response_text : Option String
  images : List MediaPath
  metadata : String
deriving DecidableEq, Repr

/-- The value returned by `save_generation`, plus the log entry it wrote
and the indices of the media items whose save failed (each of which caused
a `image_save_failed` warning). -/
structure SaveGenResult where
  generation_id : String
  log_path : String
  image_paths : List (Option MediaPath)
  entry : GenLogEntry
  warnings : List Nat
deriving DecidableEq, Repr

/-- Extension chosen by `save_image` from the MIME type. -/
def imageExt (mime : String) : String :=
  if strContains "png" mime then "png"
  else if strContains "jpeg" mime then "jpg"
  else "webp"

/-- The relative path `save_image` would return for a media blob. -/
def save_image_path (dateName gen_id mime : String) : String :=
  dateName ++ "/img_" ++ gen_id ++ "." ++ imageExt mime

/-- `save_generation`: saves each media item independently (a failed item
is recorded as `none` in `image_paths`, produces a warning, and is filtered
out of the log entry's media list), then writes the log entry and returns
the ids and paths. -/
def save_generation (saveFails : Nat → Bool) (dateName gen_id : String)
    (endpoint prompt : String) (response_text : Option String)
    (images_base64 : List MediaItem) (metadata : String) : SaveGenResult :=
  let image_paths : List (Option MediaPath) :=
    images_base64.enum.map (fun iimg =>
      let mime := iimg.2.mime_type.getD "image/png"
      let img_id := if images_base64.length > 1 then gen_id ++ "_" ++ toString iimg.1 else gen_id
      if saveFails iimg.1 then none
      else some { path := save_image_path dateName img_id mime, mime_type := mime })
  { generation_id := gen_id
    log_path := dateName ++ "/gen_" ++ gen_id ++ ".json"
    image_paths := image_paths
    entry := { id := gen_id
               endpoint := endpoint
               prompt := prompt
               response_text := response_text
               images := image_paths.filterMap id
               metadata := metadata }
    warnings := (images_base64.enum.filter (fun iimg => saveFails iimg.1)).map (fun iimg => iimg.1) }

/-! ## Media fetcher MIME determination (`fetch_image_from_url`)

The pure part of `fetch_image_from_url`: given the response's content-type
header (or its absence) and the response bytes, determine the MIME type.
`headers.get("content-type", "image/jpeg")` substitutes a default when the
header is absent; the declared value is truncated at the first `;` and
stripped; a non-`image/` value triggers signature sniffing. -/

/-- Signature sniffing of the magic bytes (the body of the non-image
branch): PNG, JPEG and WebP signatures, with `image/jpeg` as the final
fallback. -/
def sniff_mime (data : List Nat) : String :=
  if data.take 8 = [0x89, 0x50, 0x4E, 0x47, 0x0D, 0x0A, 0x1A, 0x0A] then "image/png"
  else if data.take 2 = [0xff, 0xd8] then "image/jpeg"
  else if data.take 4 = [0x52, 0x49, 0x46, 0x46] ∧ (data.drop 8).take 4 = [0x57, 0x45, 0x42, 0x50] then
    "image/webp"
  else "image/jpeg"

/-- Python `content_type.split(";")[0]`. -/
def beforeSemicolon (s : String) : String :=
  match splitFirst ";".toList s.toList with
  | some p => String.mk p.1
  | none => s

/-- MIME determination of `fetch_image_from_url` (lines 73-88). -/
def determine_mime (content_type_header : Option String) (data : List Nat) : String :=
  let content_type := content_type_header.getD "image/jpeg"
  let mime := pyStrip (beforeSemicolon content_type)
  if "image/".toList.isPrefixOf mime.toList then mime else sniff_mime data

/-! ## Concrete instances used by witnesses and counterexamples -/

/-! ## Stage bundle -/

/-- All intermediate results of one `run_pipeline` invocation after
parsing, bundled: the exact chain computed inside the endpoint. -/
structure PipelineStages where
  images : List GeneratedImage
  selections : List ProductSelection
  composed : List (ComposedImage × ProductSelection)
  mts : List (MaskTask × ComposedImage × ProductSelection)
  masks : List GeneratedMask
  placements : List PlacementResult

/-- The stage chain of `run_pipeline` for given parsed scenes. -/
def pipeline_stages (o : GeminiOracle) (products : List ProductInfo)
    (scenes : List SceneDescription) : PipelineStages :=
  let images := pipeline_images o scenes
  let selections := pipeline_selections o products images
  let composed := pipeline_composed o
    (compose_tasks products (product_images_cache o products) images selections)
  let mts := mask_tasks products composed
  { images := images
    selections := selections
    composed := composed
    mts := mts
    masks := pipeline_masks o mts
    placements := assemble_placements o products scenes images mts }

/-- An oracle whose every capability call fails; used to instantiate
universally quantified oracles in witnesses. -/
def failingOracle : GeminiOracle :=
  { queryScenes := fun _ _ => none
    genImage := fun _ _ => none
    multimedia := fun _ _ _ => none
    compose := fun _ => none
    genMask := fun _ => none
    fetch := fun _ => none }

/-- A request with a whitespace-only writing context and no products. -/
def blankRequest : PipelineRequest :=
  { writing_context := "  ", products := [], scene_count := 3, continuation_ratio := 0 }

/-- An oracle for the fan-out witness: image generation succeeds only for
scene description `"ok"`, and the selection call answers a parsable
response only for image data `"ok"`. -/
def partialOracle : GeminiOracle :=
  { queryScenes := fun _ _ => none
    genImage := fun d _ => if d = "ok" then some [("IMG", "image/png")] else none
    multimedia := fun _ img _ =>
      if img = "ok" then
        some "<product_id>p1</product_id><placement>desk</placement><rationale>fits</rationale>"
      else none
    compose := fun _ => none
    genMask := fun _ => none
    fetch := fun _ => none }

/-- Concrete two-item batches for the fan-out witness. -/
def twoScenes : List ImageGenRequest :=
  [{ scene_id := "s1", scene_description := "ok", mood := "m" },
   { scene_id := "s2", scene_description := "bad", mood := "m" }]

/-- Concrete two-image batch for the selection fan-out witness. -/
def twoImages : List ImageForSelection :=
  [{ scene_id := "s1", image_data := "ok", mime_type := "image/png" },
   { scene_id := "s2", image_data := "bad", mime_type := "image/png" }]

/-- The PNG signature bytes. -/
def pngMagic : List Nat := [0x89, 0x50, 0x4E, 0x47, 0x0D, 0x0A, 0x1A, 0x0A]

/-- The concrete decomposition for the C5 witness: everything before the
first `<rationale>` tag of the repeated-tag response. -/
def beforeRationale : List Char :=
  "<product_id> A </product_id><product_id>B</product_id><placement>x</placement>".toList

/-- A minimal valid one-scene, one-product request. -/
def simpleRequest : PipelineRequest :=
  { writing_context := "w", products := [{ id := "p1", name := "N", brand := "B" }],
    liked_scenes := [], scene_count := 1, continuation_ratio := 0 }

/-- The scene response used by the concrete pipeline runs. -/
def pipeSceneText : String :=
  "<scene id=\"1\"><description>D</description><mood>M</mood></scene>"

/-- An oracle under which stages 1-4 all succeed for `simpleRequest` but
every mask-generation call fails. -/
def noMaskOracle : GeminiOracle :=
  { queryScenes := fun _ _ => some pipeSceneText
    genImage := fun _ _ => some [("IMG", "image/png")]
    multimedia := fun _ _ _ =>
      some "<product_id>p1</product_id><placement>desk</placement><rationale>fits</rationale>"
    compose := fun _ => some [("CIMG", "image/png")]
    genMask := fun _ => none
    fetch := fun _ => none }

/-! ## Helper lemmas -/

theorem length_filterMap_add_length_filter_isNone {α β : Type} (f : α → Option β) (l : List α) :
    (l.filterMap f).length + (l.filter (fun a => (f a).isNone)).length = l.length := by
  induction l with
  | nil => rfl
  | cons a t ih =>
    cases h : f a with
    | none =>
      simp [List.filterMap_cons, h, List.filter_cons]
      omega
    | some b =>
      simp [List.filterMap_cons, h, List.filter_cons]
      omega

theorem length_filterMap_eq_length_filter_isSome {α β : Type} (f : α → Option β) (l : List α) :
    (l.filterMap f).length = (l.filter (fun a => (f a).isSome)).length := by
  induction l with
  | nil => rfl
  | cons a t ih =>
    cases h : f a with
    | none => simpa [List.filterMap_cons, h, List.filter_cons] using ih
    | some b => simpa [List.filterMap_cons, h, List.filter_cons] using ih

/-! ## C3: continuation/exploration split -/

/-- C3: for every request, `continuation_count = round(scene_count * continuation_ratio)`
and `exploration_count = scene_count - continuation_count`, except that with no
liked-scene history the split is forced to `(0, scene_count)`; in particular
`scene_count = 5`, `continuation_ratio = 0.6` with non-empty history yields
`(3, 2)`, and with empty history `(0, 5)`. -/
theorem continuation_split_spec :
    (∀ (n : Int) (r : Rat) (l : List LikedScene), l ≠ [] →
      continuation_split n r l = (py_round ((n : Rat) * r), n - py_round ((n : Rat) * r)))
    ∧ (∀ (n : Int) (r : Rat), continuation_split n r [] = (0, n))
    ∧ (∀ l : List LikedScene, l ≠ [] → continuation_split 5 (6/10) l = (3, 2))
    ∧ continuation_split 5 (6/10) [] = (0, 5) := by
  refine ⟨?_, ?_, ?_, ?_⟩
  · intro n r l h
    simp [continuation_split, h]
  · intro n r
    simp [continuation_split]
  · intro l h
    have harg : ((5 : Int) : Rat) * (6/10) = 3 := by norm_num
    simp only [continuation_split, harg, h, if_false]
    have h3 : py_round 3 = 3 := by decide
    rw [h3]
    norm_num
  · simp [continuation_split]

/-- Witness for C3 at a concrete non-empty liked-scene history. -/
theorem continuation_split_spec_witness :
    continuation_split 5 (6/10) [{ description := "d", mood := "m" }] = (3, 2) :=
  continuation_split_spec.2.2.1 [{ description := "d", mood := "m" }] (by simp)

/-! ## C4: scene-response parsing -/

set_option maxRecDepth 40000 in
/-- C4: the scene block with a `type` attribute parses to the prefixed id,
description, mood and kind `"continuation"`; a block without the attribute
parses to kind `"exploration"`; a malformed block is dropped while a good
one is still extracted; surrounding prose does not prevent extraction. -/
theorem parse_scenes_xml_spec :
    parse_scenes_xml "<scene id=\"3\" type=\"continuation\"><description>D</description><mood>M</mood></scene>" =
      [{ id := "scene-3", description := "D", mood := "M", scene_type := "continuation" }]
    ∧ parse_scenes_xml "<scene id=\"3\"><description>D</description><mood>M</mood></scene>" =
      [{ id := "scene-3", description := "D", mood := "M", scene_type := "exploration" }]
    ∧ parse_scenes_xml "Sure! Here are the scenes:\n<scene id=\"3\" type=\"continuation\">\n  <description>D</description>\n  <mood>M</mood>\n</scene>\nHope this helps." =
      [{ id := "scene-3", description := "D", mood := "M", scene_type := "continuation" }]
    ∧ parse_scenes_xml "<scene id=\"abc\"><description>X</description><mood>Y</mood></scene><scene id=\"2\"><description>D2</description><mood>M2</mood></scene>" =
      [{ id := "scene-2", description := "D2", mood := "M2", scene_type := "exploration" }] := by
  refine ⟨by decide, by decide, by decide, by decide⟩

/-! ## C10: match_score is always the model default 5 -/

/-- C10: whenever selection parsing succeeds, the returned `ProductSelection`
has `match_score = 5`; the parser never reads a score from the response. -/
theorem parse_selection_match_score (text sid : String) (sel : ProductSelection)
    (h : parse_selection_xml text sid = some sel) : sel.match_score = 5 := by
  unfold parse_selection_xml at h
  split at h
  · cases h
    rfl
  · cases h

/-- Witness for C10 at a concrete parsable response. -/
theorem parse_selection_match_score_witness :
    ({ scene_id := "s1", selected_product_id := "p1", placement_hint := "on the table",
       rationale := "fits", match_score := 5 } : ProductSelection).match_score = 5 :=
  parse_selection_match_score
    "<product_id> p1 </product_id><placement>on the table</placement><rationale>fits</rationale>"
    "s1" _ (by decide)

/-! ## C7: upfront pipeline validation -/

/-- C7: an empty (or whitespace-only) writing context, an empty product
list, or a scene count outside 1..10 makes `run_pipeline` return a 400
validation error, and the outcome is the same for every capability oracle
(no stage runs, no capability call can influence the result). -/
theorem run_pipeline_validation (req : PipelineRequest)
    (h : pyStrip req.writing_context = "" ∨ req.products = [] ∨
         req.scene_count < 1 ∨ req.scene_count > 10) :
    ∀ o : GeminiOracle,
      (∃ d, run_pipeline req o = Except.error { status := 400, detail := d })
      ∧ ∀ o2 : GeminiOracle, run_pipeline req o2 = run_pipeline req o := by
  intro o
  constructor
  · unfold run_pipeline
    split_ifs with h1 h2 h3
    · exact ⟨_, rfl⟩
    · exact ⟨_, rfl⟩
    · exact ⟨_, rfl⟩
    · rcases h with h | h | h | h
      · exact absurd h h1
      · exact absurd h h2
      · exact absurd (Or.inl h) h3
      · exact absurd (Or.inr h) h3
  · intro o2
    unfold run_pipeline
    split_ifs with h1 h2 h3
    · rfl
    · rfl
    · rfl
    · rcases h with h | h | h | h
      · exact absurd h h1
      · exact absurd h h2
      · exact absurd (Or.inl h) h3
      · exact absurd (Or.inr h) h3


/-- Witness for C7 at a whitespace-only writing context. -/
theorem run_pipeline_validation_witness :
    (∃ d, run_pipeline blankRequest failingOracle = Except.error { status := 400, detail := d })
    ∧ ∀ o2 : GeminiOracle,
        run_pipeline blankRequest o2 = run_pipeline blankRequest failingOracle :=
  run_pipeline_validation blankRequest (Or.inl (by decide)) failingOracle

/-! ## C6: fan-out failure isolation -/

/-- C6: for a batch of `N` items to a fanned stage with `K` per-item
failures (`K < N`), the stage returns exactly the `N - K` successful items
plus one error-log entry per failed item carrying that item's `scene_id`,
and the batch is not aborted (the endpoint returns normally).  Stated for
both fanned stages named by the claim: `generate_images` and
`select_products`. -/
theorem fanout_failure_isolation :
    (∀ (o : GeminiOracle) (scenes : List ImageGenRequest),
      (scenes.filter (fun s =>
          (generate_single_image o s.scene_id s.scene_description s.mood).isNone)).length
        < scenes.length →
      (generate_images_endpoint o scenes).1.length
          = scenes.length - (scenes.filter (fun s =>
              (generate_single_image o s.scene_id s.scene_description s.mood).isNone)).length
        ∧ (generate_images_endpoint o scenes).2.length
          = (scenes.filter (fun s =>
              (generate_single_image o s.scene_id s.scene_description s.mood).isNone)).length
        ∧ ∀ sid ∈ (generate_images_endpoint o scenes).2,
            ∃ s ∈ scenes,
              (generate_single_image o s.scene_id s.scene_description s.mood).isNone
              ∧ s.scene_id = sid)
    ∧ (∀ (o : GeminiOracle) (products : List ProductInfo) (images : List ImageForSelection),
      (images.filter (fun img =>
          (select_product_for_image o img.scene_id img.image_data img.mime_type
            (build_products_xml products)).isNone)).length
        < images.length →
      (select_products_endpoint o products images).1.length
          = images.length - (images.filter (fun img =>
              (select_product_for_image o img.scene_id img.image_data img.mime_type
                (build_products_xml products)).isNone)).length
        ∧ (select_products_endpoint o products images).2.length
          = (images.filter (fun img =>
              (select_product_for_image o img.scene_id img.image_data img.mime_type
                (build_products_xml products)).isNone)).length
        ∧ ∀ sid ∈ (select_products_endpoint o products images).2,
            ∃ img ∈ images,
              (select_product_for_image o img.scene_id img.image_data img.mime_type
                (build_products_xml products)).isNone
              ∧ img.scene_id = sid) := by
  constructor
  · intro o scenes _
    refine ⟨?_, ?_, ?_⟩
    · have := length_filterMap_add_length_filter_isNone
        (fun s : ImageGenRequest =>
          generate_single_image o s.scene_id s.scene_description s.mood) scenes
      simp only [generate_images_endpoint]
      omega
    · simp [generate_images_endpoint]
    · intro sid hsid
      simp only [generate_images_endpoint, List.mem_map, List.mem_filter] at hsid
      obtain ⟨s, ⟨hs, hfail⟩, rfl⟩ := hsid
      exact ⟨s, hs, by simpa using hfail, rfl⟩
  · intro o products images _
    refine ⟨?_, ?_, ?_⟩
    · have := length_filterMap_add_length_filter_isNone
        (fun img : ImageForSelection =>
          select_product_for_image o img.scene_id img.image_data img.mime_type
            (build_products_xml products)) images
      simp only [select_products_endpoint]
      omega
    · simp [select_products_endpoint]
    · intro sid hsid
      simp only [select_products_endpoint, List.mem_map, List.mem_filter] at hsid
      obtain ⟨img, ⟨hm, hfail⟩, rfl⟩ := hsid
      exact ⟨img, hm, by simpa using hfail, rfl⟩


/-- Witness for C6: two items, one forced failure, for both fanned stages. -/
theorem fanout_failure_isolation_witness :
    ((generate_images_endpoint partialOracle twoScenes).1.length = 2 - 1
      ∧ (generate_images_endpoint partialOracle twoScenes).2.length = 1
      ∧ ∀ sid ∈ (generate_images_endpoint partialOracle twoScenes).2,
          ∃ s ∈ twoScenes,
            (generate_single_image partialOracle s.scene_id s.scene_description s.mood).isNone
            ∧ s.scene_id = sid)
    ∧ ((select_products_endpoint partialOracle [] twoImages).1.length = 2 - 1
      ∧ (select_products_endpoint partialOracle [] twoImages).2.length = 1
      ∧ ∀ sid ∈ (select_products_endpoint partialOracle [] twoImages).2,
          ∃ img ∈ twoImages,
            (select_product_for_image partialOracle img.scene_id img.image_data img.mime_type
              (build_products_xml [])).isNone
            ∧ img.scene_id = sid) := by
  have h1 := fanout_failure_isolation.1 partialOracle twoScenes (by decide)
  have h2 := fanout_failure_isolation.2 partialOracle [] twoImages (by decide)
  exact ⟨⟨by simpa using h1.1, h1.2.1, h1.2.2⟩, ⟨by simpa using h2.1, h2.2.1, h2.2.2⟩⟩

/-! ## C8: best-effort media persistence in the generation store -/

/-- C8: every media item is persisted independently; a failed item never
fails the record call (which always yields a log entry under the same
generation id), the failed item is omitted from the entry's media list
(whose length is exactly the number of successful saves, and whose every
element stems from a successful save), and one warning is logged per
failed index. -/
theorem save_generation_best_effort (saveFails : Nat → Bool) (dateName gen_id ep pr : String)
    (rt : Option String) (imgs : List MediaItem) (md : String) :
    (save_generation saveFails dateName gen_id ep pr rt imgs md).generation_id = gen_id
    ∧ (save_generation saveFails dateName gen_id ep pr rt imgs md).entry.id = gen_id
    ∧ (save_generation saveFails dateName gen_id ep pr rt imgs md).image_paths.length
        = imgs.length
    ∧ (save_generation saveFails dateName gen_id ep pr rt imgs md).entry.images.length
        = (imgs.enum.filter (fun p => !saveFails p.1)).length
    ∧ (save_generation saveFails dateName gen_id ep pr rt imgs md).warnings
        = (imgs.enum.filter (fun p => saveFails p.1)).map (fun p => p.1)
    ∧ ∀ mp ∈ (save_generation saveFails dateName gen_id ep pr rt imgs md).entry.images,
        ∃ p ∈ imgs.enum, saveFails p.1 = false
          ∧ mp.mime_type = p.2.mime_type.getD "image/png" := by
  have himg : (save_generation saveFails dateName gen_id ep pr rt imgs md).entry.images
      = imgs.enum.filterMap (fun p =>
          if saveFails p.1 then none
          else some ({ path := save_image_path dateName
                         (if imgs.length > 1 then gen_id ++ "_" ++ toString p.1 else gen_id)
                         (p.2.mime_type.getD "image/png"),
                       mime_type := p.2.mime_type.getD "image/png" } : MediaPath)) := by
    simp only [save_generation, List.filterMap_map]
    congr 1
  refine ⟨rfl, rfl, by simp [save_generation], ?_, rfl, ?_⟩
  · rw [himg, length_filterMap_eq_length_filter_isSome]
    congr 1
    apply List.filter_congr
    intro p _
    by_cases h : saveFails p.1 <;> simp [h]
  · intro mp hmp
    rw [himg] at hmp
    rw [List.mem_filterMap] at hmp
    obtain ⟨p, hp, heq⟩ := hmp
    by_cases h : saveFails p.1
    · rw [if_pos h] at heq
      cases heq
    · rw [if_neg h] at heq
      cases heq
      exact ⟨p, hp, by simp [h], rfl⟩

/-! ## C9: media fetcher MIME determination

The claim says sniffing happens when the declared type is absent *or*
non-image.  The code substitutes the default `"image/jpeg"` for an absent
header before the image-type test, so an absent header never reaches the
sniffing branch: PNG content with no content-type header comes back as
`image/jpeg`, not the sniffed `image/png`. -/


/-- Counterexample to C9 as stated: with the content-type header absent and
PNG content, the code returns `image/jpeg` without sniffing, while
signature-sniffing the content yields `image/png`. -/
theorem determine_mime_absent_header_cex :
    determine_mime none pngMagic = "image/jpeg"
    ∧ sniff_mime pngMagic = "image/png"
    ∧ determine_mime none pngMagic ≠ sniff_mime pngMagic := by
  refine ⟨by decide, by decide, by decide⟩

/-- C9 (amended): the MIME type is the cleaned declared content type
whenever that (or the default `image/jpeg` substituted for an absent
header) is an image type; signature-sniffing of the PNG/JPEG/WebP magic
bytes happens only when a declared content type is present and non-image;
an absent header always yields `image/jpeg` with no sniffing. -/
theorem determine_mime_spec :
    (∀ (ct : String) (data : List Nat),
        "image/".toList.isPrefixOf (pyStrip (beforeSemicolon ct)).toList = true →
        determine_mime (some ct) data = pyStrip (beforeSemicolon ct))
    ∧ (∀ (ct : String) (data : List Nat),
        "image/".toList.isPrefixOf (pyStrip (beforeSemicolon ct)).toList = false →
        determine_mime (some ct) data = sniff_mime data)
    ∧ (∀ data : List Nat, determine_mime none data = "image/jpeg") := by
  refine ⟨?_, ?_, ?_⟩
  · intro ct data h
    simp only [determine_mime, Option.getD]
    rw [if_pos h]
  · intro ct data h
    have hne : ¬ ("image/".toList.isPrefixOf (pyStrip (beforeSemicolon ct)).toList = true) := by
      intro hc
      rw [hc] at h
      exact Bool.noConfusion h
    simp only [determine_mime, Option.getD]
    rw [if_neg hne]
  · intro data
    rfl

/-- Witness for C9 (amended): a declared image type passes through (with
the parameter part stripped), and a declared non-image type triggers
sniffing. -/
theorem determine_mime_spec_witness :
    determine_mime (some "image/png; charset=utf-8") [] = "image/png"
    ∧ determine_mime (some "text/html") [0xff, 0xd8] = "image/jpeg" := by
  constructor
  · have h := determine_mime_spec.1 "image/png; charset=utf-8" [] (by decide)
    rw [h]
    decide
  · have h := determine_mime_spec.2.1 "text/html" [0xff, 0xd8] (by decide)
    rw [h]
    decide

/-! ## C5: selection parsing is all-or-nothing, first match wins

A full characterisation of `splitFirst` (and hence of the committed
leftmost `re.search` semantics of `searchTag`): `splitFirst pat text`
returns `some (a, r)` exactly when `text = a ++ pat ++ r` and no earlier
position carries an occurrence of `pat`. -/

theorem isPrefixOf_nil_of_ne {pat : List Char} (h : pat ≠ []) :
    pat.isPrefixOf ([] : List Char) = false := by
  cases pat with
  | nil => exact absurd rfl h
  | cons c cs => rfl

theorem splitFirst_eq_some_iff {pat : List Char} (hpat : pat ≠ []) :
    ∀ (text a r : List Char),
      splitFirst pat text = some (a, r) ↔
        (text = a ++ pat ++ r ∧ ∀ j < a.length, pat.isPrefixOf (text.drop j) = false) := by
  intro text
  induction text with
  | nil =>
    intro a r
    simp only [splitFirst, isPrefixOf_nil_of_ne hpat, Bool.false_eq_true, if_false]
    constructor
    · intro h
      exact Option.noConfusion h
    · rintro ⟨habs, -⟩
      exfalso
      have hlen := congrArg List.length habs
      have hp : 0 < pat.length := List.length_pos.mpr hpat
      simp [List.length_append] at hlen
      omega
  | cons c cs ih =>
    intro a r
    cases hpre : pat.isPrefixOf (c :: cs) with
    | true =>
      simp only [splitFirst, hpre, if_true]
      constructor
      · intro h
        rw [Option.some.injEq, Prod.mk.injEq] at h
        obtain ⟨ha, hr⟩ := h
        subst ha
        subst hr
        obtain ⟨t, ht⟩ : ∃ t, pat ++ t = c :: cs := List.isPrefixOf_iff_prefix.mp hpre
        refine ⟨?_, ?_⟩
        · rw [← ht, List.nil_append, List.drop_left]
        · intro j hj
          exact absurd hj (by simp)
      · rintro ⟨htext, hmin⟩
        cases a with
        | nil =>
          rw [List.nil_append] at htext
          rw [Option.some.injEq, Prod.mk.injEq]
          refine ⟨rfl, ?_⟩
          rw [htext, List.drop_left]
        | cons c0 a2 =>
          have h0 := hmin 0 (by simp)
          rw [List.drop_zero] at h0
          rw [h0] at hpre
          exact Bool.noConfusion hpre
    | false =>
      have hni : ¬ (pat.isPrefixOf (c :: cs) = true) := by
        intro hc
        rw [hc] at hpre
        exact Bool.noConfusion hpre
      simp only [splitFirst, if_neg hni]
      constructor
      · intro h
        rw [Option.map_eq_some'] at h
        obtain ⟨⟨a2, r2⟩, hsf, hf⟩ := h
        rw [Prod.mk.injEq] at hf
        obtain ⟨ha, hr⟩ := hf
        subst ha
        subst hr
        obtain ⟨hcs, hmin2⟩ := (ih a2 r2).mp hsf
        refine ⟨by rw [List.cons_append, List.cons_append, hcs], ?_⟩
        intro j hj
        cases j with
        | zero =>
          rw [List.drop_zero]
          exact hpre
        | succ j2 =>
          rw [List.drop_succ_cons]
          exact hmin2 j2 (by simpa using hj)
      · rintro ⟨htext, hmin⟩
        cases a with
        | nil =>
          exfalso
          rw [List.nil_append] at htext
          have : pat.isPrefixOf (c :: cs) = true :=
            List.isPrefixOf_iff_prefix.mpr ⟨r, htext.symm⟩
          exact hni this
        | cons c0 a2 =>
          rw [List.cons_append, List.cons_append, List.cons.injEq] at htext
          obtain ⟨hc0, hcs⟩ := htext
          subst hc0
          rw [Option.map_eq_some']
          refine ⟨(a2, r), (ih a2 r).mpr ⟨hcs, ?_⟩, rfl⟩
          intro j hj
          have := hmin (j + 1) (by simpa using Nat.succ_lt_succ hj)
          rw [List.drop_succ_cons] at this
          exact this

theorem splitFirst_sound {pat : List Char} (hpat : pat ≠ []) {text a r : List Char}
    (h : splitFirst pat text = some (a, r)) : text = a ++ pat ++ r :=
  ((splitFirst_eq_some_iff hpat text a r).mp h).1

theorem splitFirst_min {pat : List Char} (hpat : pat ≠ []) {text a r : List Char}
    (h : splitFirst pat text = some (a, r)) :
    ∀ j < a.length, pat.isPrefixOf (text.drop j) = false :=
  ((splitFirst_eq_some_iff hpat text a r).mp h).2

theorem splitFirst_isSome_of_occurs {pat : List Char} (hpat : pat ≠ []) {text : List Char}
    (h : ∃ a r, text = a ++ pat ++ r) : (splitFirst pat text).isSome := by
  obtain ⟨a, r, rfl⟩ := h
  induction a with
  | nil =>
    obtain ⟨p0, pt, rfl⟩ : ∃ p0 pt, pat = p0 :: pt := by
      cases pat with
      | nil => exact absurd rfl hpat
      | cons x xs => exact ⟨x, xs, rfl⟩
    rw [List.nil_append, List.cons_append, splitFirst]
    rw [if_pos (List.isPrefixOf_iff_prefix.mpr ⟨r, by simp⟩)]
    rfl
  | cons c a2 ih =>
    rw [List.cons_append, List.cons_append, splitFirst]
    by_cases hpre : pat.isPrefixOf (c :: (a2 ++ pat ++ r)) = true
    · rw [if_pos (by simpa [List.cons_append] using hpre)]
      rfl
    · rw [if_neg (by simpa [List.cons_append] using hpre)]
      simpa using ih

theorem isPrefixOf_append_self (op t : List Char) : op.isPrefixOf (op ++ t) = true :=
  List.isPrefixOf_iff_prefix.mpr ⟨t, rfl⟩

/-- Reduction of `searchTag` on known `splitFirst` results. -/
theorem searchTag_eq_of_splits {op cl text a0 rest0 b0 c0 : List Char}
    (h1 : splitFirst op text = some (a0, rest0))
    (h2 : splitFirst cl rest0 = some (b0, c0)) :
    searchTag op cl text = some b0 := by
  unfold searchTag
  rw [h1]
  simp only [h2]

/-- `searchTag` fails when the opening literal never occurs. -/
theorem searchTag_eq_none_of_op {op cl text : List Char}
    (h1 : splitFirst op text = none) : searchTag op cl text = none := by
  unfold searchTag
  rw [h1]

/-- `searchTag` fails when the closing literal never occurs after the
first opening literal. -/
theorem searchTag_eq_none_of_cl {op cl text a0 rest0 : List Char}
    (h1 : splitFirst op text = some (a0, rest0))
    (h2 : splitFirst cl rest0 = none) : searchTag op cl text = none := by
  unfold searchTag
  rw [h1]
  simp only [h2]

/-- `searchTag` succeeds exactly when the text contains an opening literal
followed (anywhere later) by the closing literal. -/
theorem searchTag_isSome_iff {op cl : List Char} (hop : op ≠ []) (hcl : cl ≠ [])
    (text : List Char) :
    (searchTag op cl text).isSome ↔ ∃ a b c2, text = a ++ op ++ b ++ cl ++ c2 := by
  constructor
  · intro h
    cases h1 : splitFirst op text with
    | none =>
      rw [searchTag_eq_none_of_op h1] at h
      exact Bool.noConfusion h
    | some p1 =>
      obtain ⟨a0, rest0⟩ := p1
      cases h2 : splitFirst cl rest0 with
      | none =>
        rw [searchTag_eq_none_of_cl h1 h2] at h
        exact Bool.noConfusion h
      | some p2 =>
        obtain ⟨b0, c0⟩ := p2
        have ht := splitFirst_sound hop h1
        have hr := splitFirst_sound hcl h2
        refine ⟨a0, b0, c0, ?_⟩
        rw [ht, hr]
        simp [List.append_assoc]
  · rintro ⟨a, b, c2, rfl⟩
    have h0 : (splitFirst op (a ++ op ++ b ++ cl ++ c2)).isSome := by
      apply splitFirst_isSome_of_occurs hop
      exact ⟨a, b ++ cl ++ c2, by simp [List.append_assoc]⟩
    obtain ⟨⟨a0, rest0⟩, h1⟩ := Option.isSome_iff_exists.mp h0
    have htxt := splitFirst_sound hop h1
    have hmin := splitFirst_min hop h1
    have hle : a0.length ≤ a.length := by
      by_contra hgt
      push_neg at hgt
      have hfalse := hmin a.length hgt
      have hdrop : (a ++ op ++ b ++ cl ++ c2).drop a.length = op ++ (b ++ cl ++ c2) := by
        have hsh : a ++ op ++ b ++ cl ++ c2 = a ++ (op ++ (b ++ cl ++ c2)) := by
          simp [List.append_assoc]
        rw [hsh, List.drop_left]
      rw [hdrop, isPrefixOf_append_self] at hfalse
      exact Bool.noConfusion hfalse
    have hr0 : rest0 = (a ++ op ++ b ++ cl ++ c2).drop (a0.length + op.length) := by
      rw [htxt]
      have hsh : a0 ++ op ++ rest0 = (a0 ++ op) ++ rest0 := by simp [List.append_assoc]
      rw [hsh, ← List.length_append a0 op, List.drop_left]
    have hbc : (a ++ op ++ b ++ cl ++ c2).drop (a.length + op.length) = b ++ cl ++ c2 := by
      have hsh : a ++ op ++ b ++ cl ++ c2 = (a ++ op) ++ (b ++ cl ++ c2) := by
        simp [List.append_assoc]
      rw [hsh, ← List.length_append a op, List.drop_left]
    have hdd : rest0.drop (a.length - a0.length) = b ++ cl ++ c2 := by
      rw [hr0, List.drop_drop]
      have harith : a0.length + op.length + (a.length - a0.length) = a.length + op.length := by
        omega
      rw [harith, hbc]
    have hsplit := List.take_append_drop (a.length - a0.length) rest0
    rw [hdd] at hsplit
    have h2 : (splitFirst cl rest0).isSome := by
      apply splitFirst_isSome_of_occurs hcl
      refine ⟨rest0.take (a.length - a0.length) ++ b, c2, ?_⟩
      conv_lhs => rw [← hsplit]
      simp [List.append_assoc]
    obtain ⟨⟨b0, c0⟩, h2e⟩ := Option.isSome_iff_exists.mp h2
    rw [searchTag_eq_of_splits h1 h2e]
    rfl

/-- The first-match content of `searchTag`: when the text decomposes around
occurrences that are leftmost (no earlier occurrence of the opening
literal in the whole text, no earlier occurrence of the closing literal
after the opening), the captured content is exactly the part between them. -/
theorem searchTag_first {op cl : List Char} (hop : op ≠ []) (hcl : cl ≠ [])
    {text a b c2 : List Char}
    (htext : text = a ++ op ++ b ++ cl ++ c2)
    (hopmin : ∀ j < a.length, op.isPrefixOf (text.drop j) = false)
    (hclmin : ∀ j < b.length, cl.isPrefixOf ((b ++ cl ++ c2).drop j) = false) :
    searchTag op cl text = some b := by
  have h1 : splitFirst op text = some (a, b ++ cl ++ c2) := by
    rw [splitFirst_eq_some_iff hop]
    refine ⟨by rw [htext]; simp [List.append_assoc], hopmin⟩
  have h2 : splitFirst cl (b ++ cl ++ c2) = some (b, c2) := by
    rw [splitFirst_eq_some_iff hcl]
    exact ⟨rfl, hclmin⟩
  exact searchTag_eq_of_splits h1 h2

/-- Case analysis of `parse_selection_xml`: it fails exactly when one of
the three tag searches fails. -/
theorem parse_selection_eq_none_cases (text sid : String) :
    parse_selection_xml text sid = none ↔
      (searchTag "<product_id>".toList "</product_id>".toList text.toList = none
       ∨ searchTag "<placement>".toList "</placement>".toList text.toList = none
       ∨ searchTag "<rationale>".toList "</rationale>".toList text.toList = none) := by
  unfold parse_selection_xml
  cases h1 : searchTag "<product_id>".toList "</product_id>".toList text.toList <;>
    cases h2 : searchTag "<placement>".toList "</placement>".toList text.toList <;>
      cases h3 : searchTag "<rationale>".toList "</rationale>".toList text.toList <;>
        simp

set_option maxRecDepth 40000 in
/-- C5: selection parsing is all-or-nothing.  (1) The parse fails exactly
when one of the required `product_id` / `placement` / `rationale` tag pairs
is absent from the response — so no partial record is ever produced.
(2) When all three searches succeed the parser returns exactly the record
built from the three captures, stripped, under the given scene id.
(3) The captured content is the first match: for any decomposition of the
text around leftmost `rationale` tags, a successful parse carries exactly
that content, stripped.  (4) Concretely: with every tag repeated, the first
match of each wins, stripped; a response missing `<rationale>` yields a
parse failure. -/
theorem parse_selection_spec :
    (∀ (text sid : String),
      parse_selection_xml text sid = none ↔
        ¬ ((∃ a b c2, text.toList = a ++ "<product_id>".toList ++ b ++ "</product_id>".toList ++ c2)
           ∧ (∃ a b c2, text.toList = a ++ "<placement>".toList ++ b ++ "</placement>".toList ++ c2)
           ∧ (∃ a b c2, text.toList = a ++ "<rationale>".toList ++ b ++ "</rationale>".toList ++ c2)))
    ∧ (∀ (text sid : String) (pid plc rat : List Char),
      searchTag "<product_id>".toList "</product_id>".toList text.toList = some pid →
      searchTag "<placement>".toList "</placement>".toList text.toList = some plc →
      searchTag "<rationale>".toList "</rationale>".toList text.toList = some rat →
      parse_selection_xml text sid =
        some { scene_id := sid, selected_product_id := String.mk (pyStripL pid),
               placement_hint := String.mk (pyStripL plc),
               rationale := String.mk (pyStripL rat), match_score := 5 })
    ∧ (∀ (text sid : String) (a b c2 : List Char),
      text.toList = a ++ "<rationale>".toList ++ b ++ "</rationale>".toList ++ c2 →
      (∀ j < a.length, "<rationale>".toList.isPrefixOf (text.toList.drop j) = false) →
      (∀ j < b.length,
        "</rationale>".toList.isPrefixOf ((b ++ "</rationale>".toList ++ c2).drop j) = false) →
      ∀ sel, parse_selection_xml text sid = some sel → sel.rationale = String.mk (pyStripL b))
    ∧ parse_selection_xml "<product_id> A </product_id><product_id>B</product_id><placement>x</placement><rationale> r1 </rationale><rationale>r2</rationale>" "s" =
        some { scene_id := "s", selected_product_id := "A", placement_hint := "x",
               rationale := "r1", match_score := 5 }
    ∧ parse_selection_xml "<product_id>A</product_id><placement>x</placement>" "s" = none := by
  refine ⟨?_, ?_, ?_, by decide, by decide⟩
  · intro text sid
    rw [parse_selection_eq_none_cases]
    have e1 := @searchTag_isSome_iff "<product_id>".toList "</product_id>".toList
      (by decide) (by decide) text.toList
    have e2 := @searchTag_isSome_iff "<placement>".toList "</placement>".toList
      (by decide) (by decide) text.toList
    have e3 := @searchTag_isSome_iff "<rationale>".toList "</rationale>".toList
      (by decide) (by decide) text.toList
    rw [← Option.not_isSome_iff_eq_none, ← Option.not_isSome_iff_eq_none,
      ← Option.not_isSome_iff_eq_none, e1, e2, e3, not_and_or, not_and_or]
  · intro text sid pid plc rat h1 h2 h3
    unfold parse_selection_xml
    simp only [h1, h2, h3]
  · intro text sid a b c2 htext hopmin hclmin sel hsel
    have hs3 : searchTag "<rationale>".toList "</rationale>".toList text.toList = some b :=
      searchTag_first (by decide) (by decide) htext hopmin hclmin
    unfold parse_selection_xml at hsel
    cases h1 : searchTag "<product_id>".toList "</product_id>".toList text.toList with
    | none =>
      simp only [h1] at hsel
      exact Option.noConfusion hsel
    | some pid =>
      cases h2 : searchTag "<placement>".toList "</placement>".toList text.toList with
      | none =>
        simp only [h1, h2] at hsel
        exact Option.noConfusion hsel
      | some plc =>
        simp only [h1, h2, hs3, Option.some.injEq] at hsel
        rw [← hsel]


set_option maxRecDepth 40000 in
/-- Witness for C5: first-match-wins instantiated on the repeated-tag
response (the first `<rationale>` capture, stripped, is what the parser
returns). -/
theorem parse_selection_spec_witness :
    ({ scene_id := "s", selected_product_id := "A", placement_hint := "x",
       rationale := "r1", match_score := 5 } : ProductSelection).rationale =
      String.mk (pyStripL " r1 ".toList) :=
  parse_selection_spec.2.2.1
    "<product_id> A </product_id><product_id>B</product_id><placement>x</placement><rationale> r1 </rationale><rationale>r2</rationale>"
    "s" beforeRationale " r1 ".toList "<rationale>r2</rationale>".toList
    (by decide) (by decide) (by decide)
    { scene_id := "s", selected_product_id := "A", placement_hint := "x",
      rationale := "r1", match_score := 5 }
    (by decide)


/-! ## Scene-id provenance lemmas -/

theorem generate_single_image_scene_id {o : GeminiOracle} {sid d m : String}
    {img : GeneratedImage} (h : generate_single_image o sid d m = some img) :
    img.scene_id = sid := by
  unfold generate_single_image at h
  split at h
  · cases h
    rfl
  · exact Option.noConfusion h

theorem parse_selection_scene_id {text sid : String} {sel : ProductSelection}
    (h : parse_selection_xml text sid = some sel) : sel.scene_id = sid := by
  unfold parse_selection_xml at h
  split at h
  · cases h
    rfl
  · exact Option.noConfusion h

theorem select_product_for_image_scene_id {o : GeminiOracle}
    {sid idata mime pxml : String} {sel : ProductSelection}
    (h : select_product_for_image o sid idata mime pxml = some sel) :
    sel.scene_id = sid := by
  unfold select_product_for_image at h
  rw [Option.bind_eq_some] at h
  obtain ⟨t, -, ht⟩ := h
  exact parse_selection_scene_id ht

theorem compose_single_image_scene_id {o : GeminiOracle} {task : CompositionTask}
    {ci : ComposedImage} (h : compose_single_image o task = some ci) :
    ci.scene_id = task.scene_id := by
  unfold compose_single_image at h
  split at h
  · cases h
    rfl
  · exact Option.noConfusion h

theorem generate_single_mask_scene_id {o : GeminiOracle} {task : MaskTask}
    {mk : GeneratedMask} (h : generate_single_mask o task = some mk) :
    mk.scene_id = task.scene_id := by
  unfold generate_single_mask at h
  split at h
  · cases h
    rfl
  · exact Option.noConfusion h

/-- Characterisation of one compose-task build: it succeeds exactly when
both correlation lookups succeed, and then the task carries the selection's
scene id and the found product. -/
theorem compose_task_for_eq_some {products : List ProductInfo}
    {cache : List (String × String × String)} {images : List GeneratedImage}
    {sel : ProductSelection} {ts : CompositionTask × ProductSelection}
    (h : compose_task_for products cache images sel = some ts) :
    ∃ simg p, images.find? (fun img => img.scene_id == sel.scene_id) = some simg
      ∧ products.find? (fun p2 => p2.id == sel.selected_product_id) = some p
      ∧ ts.1.scene_id = sel.scene_id ∧ ts.2 = sel
      ∧ ts.1.product = p := by
  unfold compose_task_for at h
  split at h
  next simg p hfi hfp =>
    cases h
    exact ⟨simg, p, hfi, hfp, rfl, rfl, rfl⟩
  next =>
    exact Option.noConfusion h

/-- When no mask succeeded, the final assembly is empty. -/
theorem assemble_eq_nil_of_masks_nil (o : GeminiOracle) (products : List ProductInfo)
    (scenes : List SceneDescription) (images : List GeneratedImage)
    (mts : List (MaskTask × ComposedImage × ProductSelection))
    (h : pipeline_masks o mts = []) :
    assemble_placements o products scenes images mts = [] := by
  rw [pipeline_masks, List.filterMap_eq_nil_iff] at h
  rw [assemble_placements, List.filterMap_eq_nil_iff]
  intro t ht
  have hnone : generate_single_mask o t.1 = none := by simpa using h t ht
  unfold assemble_item
  rw [hnone]
  rfl

/-! ## C2: require-at-least-one-success checks -/

/-- C2 (amended): after each of the first four stages (scenes, images,
selections, composition) a zero-success result aborts the pipeline with a
500 error naming the failed stage and no later stage runs; there is no
such check after the final mask-generation stage — when every mask fails
the pipeline still returns success, with zero placements. -/
theorem run_pipeline_stage_checks (req : PipelineRequest) (o : GeminiOracle) (text : String)
    (hv1 : ¬ pyStrip req.writing_context = "")
    (hv2 : ¬ req.products = [])
    (hv3 : ¬ (req.scene_count < 1 ∨ req.scene_count > 10))
    (hq : o.queryScenes
        (continuation_split req.scene_count req.continuation_ratio req.liked_scenes).1
        (continuation_split req.scene_count req.continuation_ratio req.liked_scenes).2
      = some text) :
    (parse_scenes_xml text = [] →
      run_pipeline req o = Except.error { status := 500, detail := "Failed to generate scenes" })
    ∧ (parse_scenes_xml text ≠ [] →
       (pipeline_stages o req.products (parse_scenes_xml text)).images = [] →
      run_pipeline req o =
        Except.error { status := 500, detail := "Failed to generate any images" })
    ∧ (parse_scenes_xml text ≠ [] →
       (pipeline_stages o req.products (parse_scenes_xml text)).images ≠ [] →
       (pipeline_stages o req.products (parse_scenes_xml text)).selections = [] →
      run_pipeline req o =
        Except.error { status := 500, detail := "Failed to select any products" })
    ∧ (parse_scenes_xml text ≠ [] →
       (pipeline_stages o req.products (parse_scenes_xml text)).images ≠ [] →
       (pipeline_stages o req.products (parse_scenes_xml text)).selections ≠ [] →
       (pipeline_stages o req.products (parse_scenes_xml text)).composed = [] →
      run_pipeline req o =
        Except.error { status := 500, detail := "Failed to compose any images" })
    ∧ (parse_scenes_xml text ≠ [] →
       (pipeline_stages o req.products (parse_scenes_xml text)).images ≠ [] →
       (pipeline_stages o req.products (parse_scenes_xml text)).selections ≠ [] →
       (pipeline_stages o req.products (parse_scenes_xml text)).composed ≠ [] →
      run_pipeline req o =
        Except.ok (pipeline_stages o req.products (parse_scenes_xml text)).placements
      ∧ ((pipeline_stages o req.products (parse_scenes_xml text)).masks = [] →
         (pipeline_stages o req.products (parse_scenes_xml text)).placements = [])) := by
  refine ⟨?_, ?_, ?_, ?_, ?_⟩
  · intro h1
    simp only [run_pipeline, if_neg hv1, if_neg hv2, if_neg hv3, hq]
    rw [if_pos h1]
  · intro h1 h2
    simp only [pipeline_stages] at h2
    simp only [run_pipeline, if_neg hv1, if_neg hv2, if_neg hv3, hq]
    rw [if_neg h1, if_pos h2]
  · intro h1 h2 h3
    simp only [pipeline_stages] at h2 h3
    simp only [run_pipeline, if_neg hv1, if_neg hv2, if_neg hv3, hq]
    rw [if_neg h1, if_neg h2, if_pos h3]
  · intro h1 h2 h3 h4
    simp only [pipeline_stages] at h2 h3 h4
    simp only [run_pipeline, if_neg hv1, if_neg hv2, if_neg hv3, hq]
    rw [if_neg h1, if_neg h2, if_neg h3, if_pos h4]
  · intro h1 h2 h3 h4
    simp only [pipeline_stages] at h2 h3 h4
    constructor
    · simp only [run_pipeline, if_neg hv1, if_neg hv2, if_neg hv3, hq]
      rw [if_neg h1, if_neg h2, if_neg h3, if_neg h4]
      simp [pipeline_stages]
    · intro hm
      simp only [pipeline_stages] at hm ⊢
      exact assemble_eq_nil_of_masks_nil _ _ _ _ _ hm

/-- Witness for C2 (amended) on a concrete run in which the first four
stages succeed and the mask stage yields zero successes. -/
theorem run_pipeline_stage_checks_witness :
    run_pipeline simpleRequest noMaskOracle = Except.ok [] := by
  have h := run_pipeline_stage_checks simpleRequest noMaskOracle pipeSceneText
    (by decide) (by decide) (by decide) rfl
  have h5 := h.2.2.2.2 (by decide) (by decide) (by decide) (by decide)
  rw [h5.1, h5.2 (by decide)]

/-- Counterexample to C2 as stated: the mask stage of this run yields zero
successful items (while its input, the composition stage, was non-empty),
yet the pipeline does not abort — it returns success with no placements. -/
theorem run_pipeline_no_mask_check_cex :
    run_pipeline simpleRequest noMaskOracle = Except.ok []
    ∧ (pipeline_stages noMaskOracle simpleRequest.products
        (parse_scenes_xml pipeSceneText)).composed ≠ []
    ∧ (pipeline_stages noMaskOracle simpleRequest.products
        (parse_scenes_xml pipeSceneText)).masks = [] := by
  refine ⟨?_, by decide, by decide⟩
  rfl

/-! ## C1: final assembly join -/

/-- C1: a `PlacementResult` for a given `scene_id` appears in the final
output exactly when every required upstream record for that `scene_id`
exists: a parsed scene, a generated image, a product selection whose
selected product id matches some catalog product (so a `"NONE"` selection
yields none), a composed image, and a successful mask.  A `scene_id`
missing any link is simply absent — the assembly itself never fails. -/
theorem placement_result_join_iff (o : GeminiOracle) (products : List ProductInfo)
    (scenes : List SceneDescription) (sid : String) :
    (∃ pr ∈ (pipeline_stages o products scenes).placements, pr.scene_id = sid) ↔
      ((∃ s ∈ scenes, s.id = sid)
       ∧ (∃ img ∈ (pipeline_stages o products scenes).images, img.scene_id = sid)
       ∧ (∃ sel ∈ (pipeline_stages o products scenes).selections,
           sel.scene_id = sid ∧ ∃ p ∈ products, p.id = sel.selected_product_id)
       ∧ (∃ cp ∈ (pipeline_stages o products scenes).composed, cp.1.scene_id = sid)
       ∧ (∃ mk ∈ (pipeline_stages o products scenes).masks, mk.scene_id = sid)) := by
  simp only [pipeline_stages]
  constructor
  · rintro ⟨pr, hpr, hsid⟩
    rw [assemble_placements, List.mem_filterMap] at hpr
    obtain ⟨t, ht, hit⟩ := hpr
    have htmem := ht
    unfold assemble_item at hit
    rw [Option.bind_eq_some] at hit
    obtain ⟨mk, hmk, hmatch⟩ := hit
    rw [mask_tasks, List.mem_map] at ht
    obtain ⟨cs, hcs, hteq⟩ := ht
    subst hteq
    have hcsmem := hcs
    rw [pipeline_composed, List.mem_filterMap] at hcs
    obtain ⟨ts, hts, hcsi⟩ := hcs
    rw [Option.map_eq_some'] at hcsi
    obtain ⟨ci, hci, hcseq⟩ := hcsi
    subst hcseq
    rw [compose_tasks, List.mem_filterMap] at hts
    obtain ⟨sel, hselmem, hcomp⟩ := hts
    obtain ⟨simg0, p0, hfi, hfp, htsid, hts2, -⟩ := compose_task_for_eq_some hcomp
    have hselmem2 := hselmem
    rw [pipeline_selections, List.mem_filterMap] at hselmem2
    obtain ⟨img0, himg0mem, hselitem⟩ := hselmem2
    have hselsid := select_product_for_image_scene_id hselitem
    have himg0p := himg0mem
    rw [pipeline_images, List.mem_filterMap] at himg0p
    obtain ⟨s0, hs0, himgitem⟩ := himg0p
    have himgsid := generate_single_image_scene_id himgitem
    have hcisid := compose_single_image_scene_id hci
    have hmksid := generate_single_mask_scene_id hmk
    -- normalise the projections of the substituted tuple
    simp only [] at hsid hmatch hmksid
    -- hsid is pr.scene_id = sid; extract pr.scene_id = ci.scene_id from hmatch
    have hci_sid : ci.scene_id = sid := by
      split at hmatch
      next s1 simg1 p1 heq1 heq2 heq3 =>
        cases hmatch
        exact hsid
      next =>
        exact Option.noConfusion hmatch
    refine ⟨⟨s0, hs0, ?_⟩, ⟨img0, himg0mem, ?_⟩,
      ⟨sel, hselmem, ?_, ⟨p0, List.mem_of_find?_eq_some hfp, ?_⟩⟩,
      ⟨(ci, ts.2), hcsmem, hci_sid⟩, ⟨mk, ?_, ?_⟩⟩
    · rw [← himgsid, ← hselsid, ← htsid, ← hcisid]
      exact hci_sid
    · rw [← hselsid, ← htsid, ← hcisid]
      exact hci_sid
    · rw [← htsid, ← hcisid]
      exact hci_sid
    · have := List.find?_some hfp
      exact (beq_iff_eq.mp this)
    · rw [pipeline_masks, List.mem_filterMap]
      exact ⟨_, htmem, hmk⟩
    · rw [hmksid]
      exact hci_sid
  · rintro ⟨-, -, -, -, ⟨mk, hmkmem, hmksid⟩⟩
    rw [pipeline_masks, List.mem_filterMap] at hmkmem
    obtain ⟨t, ht, hgen⟩ := hmkmem
    have hgen2 : generate_single_mask o t.1 = some mk := hgen
    have hmk_sid := generate_single_mask_scene_id hgen2
    have htmem := ht
    rw [mask_tasks, List.mem_map] at ht
    obtain ⟨cs, hcs, hteq⟩ := ht
    subst hteq
    rw [pipeline_composed, List.mem_filterMap] at hcs
    obtain ⟨ts, hts, hcsi⟩ := hcs
    rw [Option.map_eq_some'] at hcsi
    obtain ⟨ci, hci, hcseq⟩ := hcsi
    subst hcseq
    rw [compose_tasks, List.mem_filterMap] at hts
    obtain ⟨sel, hselmem, hcomp⟩ := hts
    obtain ⟨simg0, p0, hfi, hfp, htsid, hts2, -⟩ := compose_task_for_eq_some hcomp
    have hselmem2 := hselmem
    rw [pipeline_selections, List.mem_filterMap] at hselmem2
    obtain ⟨img0, himg0mem, hselitem⟩ := hselmem2
    have hselsid := select_product_for_image_scene_id hselitem
    have himg0p := himg0mem
    rw [pipeline_images, List.mem_filterMap] at himg0p
    obtain ⟨s0, hs0, himgitem⟩ := himg0p
    have himgsid := generate_single_image_scene_id himgitem
    have hcisid := compose_single_image_scene_id hci
    simp only [] at hmk_sid hmksid htmem
    -- hmk_sid : mk.scene_id = ci.scene_id (after reduction)
    have hci_sid : ci.scene_id = sid := by
      rw [← hmk_sid]
      exact hmksid
    have hs0ci : s0.id = ci.scene_id := by
      rw [hcisid, htsid, hselsid, himgsid]
    have hfs : (scenes.find? (fun s => s.id == ci.scene_id)).isSome := by
      rw [List.find?_isSome]
      exact ⟨s0, hs0, by rw [beq_iff_eq]; exact hs0ci⟩
    obtain ⟨s1, hfs1⟩ := Option.isSome_iff_exists.mp hfs
    have hfimg : ((pipeline_images o scenes).find?
        (fun img => img.scene_id == ci.scene_id)).isSome := by
      rw [List.find?_isSome]
      refine ⟨img0, himg0mem, ?_⟩
      rw [beq_iff_eq, ← hselsid, ← htsid, ← hcisid]
    obtain ⟨simg1, hfi1⟩ := Option.isSome_iff_exists.mp hfimg
    simp only [] at hgen2
    have hassem : assemble_item o products scenes (pipeline_images o scenes)
        ({ scene_id := ci.scene_id, composed_image := ci.image_data, mime_type := ci.mime_type,
           product_name :=
             match List.find? (fun p => p.id == ts.2.selected_product_id) products with
             | some p => p.name
             | none => "product" }, ci, ts.2)
        = some { scene_id := ci.scene_id, scene_description := s1.description,
                 mood := s1.mood, scene_type := s1.scene_type,
                 scene_image := simg1.image_data, composed_image := ci.image_data,
                 mask := mk.mask_data, mime_type := ci.mime_type, product := p0,
                 placement_hint := ts.2.placement_hint, rationale := ts.2.rationale } := by
      unfold assemble_item
      simp only []
      rw [hgen2, Option.some_bind, hts2, hfs1, hfi1, hfp]
    exact ⟨_, List.mem_filterMap.mpr ⟨_, htmem, hassem⟩, hci_sid⟩
